import Mathlib

/-
Shallow embedding of the CheckBeer repository (src/include/JNIHelper.hpp and
src/include/SignatureCheck.hpp).

The JNI helper layer is embedded as explicit state passing over a JNI-state
record holding the pending managed exception.  A raw JNI primitive call is
described by a `RawOutcome`: the value the primitive returns together with the
pending managed exception it leaves behind (if any).  Each helper of the `jni`
namespace performs its raw calls and runs `JNI_CHECK_EXCEPTION`, which embeds
as `jniCheckException`.

The six tamper probes of SignatureCheck.hpp are embedded as pure functions of
an environment record describing what the managed runtime returns at each JNI
call site of the probe (an `Except`-valued observation per call chain: the
error case models the helper throwing `JNIException`).  The filesystem touched
by checkApkPaths is embedded as a map from path strings to stat metadata,
threaded explicitly through the probe.  Invoking a managed method on a null
object reference is modelled as a thrown NullPointerException.
-/

namespace jni

/-- An abstract managed-runtime throwable (the `jthrowable` captured by
`ExceptionOccurred`). -/
structure Throwable where
  tid : Nat
deriving DecidableEq, Repr

/-- Embedding of `jni::JNIException`: a C++ exception carrying a message and
the captured managed throwable (JNIHelper.hpp lines 11-20). -/
structure JNIException where
  message : String
  javaThrowable : Option Throwable
deriving DecidableEq, Repr

/-- The observable JNI environment state: the pending managed exception. -/
structure JNIState where
  pending : Option Throwable
deriving DecidableEq, Repr

/-- A stateful JNI computation: it either returns a value or throws a C++
`JNIException`, and it updates the JNI state. -/
def JniM (α : Type) : Type := JNIState → Except JNIException α × JNIState

/-- Outcome of one raw JNI primitive call: the value it returns and the pending
managed exception it leaves behind (`none` when the call completes normally). -/
structure RawOutcome (α : Type) where
  value : α
  exc : Option Throwable
deriving DecidableEq, Repr

/-- Run a raw JNI primitive: it never throws in C++; it may leave a pending
managed exception (when it leaves none, a previously pending one stays). -/
def runRaw {α : Type} (raw : RawOutcome α) : JNIState → α × JNIState :=
  fun st =>
    (raw.value, ⟨match raw.exc with
                 | some e => some e
                 | none => st.pending⟩)

/-- Embedding of the `JNI_CHECK_EXCEPTION` macro (JNIHelper.hpp lines 23-31):
if a managed exception is pending, capture it, clear it, and throw a
`jni::JNIException` carrying it; otherwise do nothing. -/
def jniCheckException : JniM Unit :=
  fun st =>
    match st.pending with
    | some ex => (Except.error ⟨"JNI exception occurred", some ex⟩, ⟨none⟩)
    | none => (Except.ok (), st)

/-- The common body shape of the jni helpers: one raw primitive call followed
by `JNI_CHECK_EXCEPTION`, returning the raw call's value. -/
def checkedCall {α : Type} (raw : RawOutcome α) : JniM α :=
  fun st =>
    let r := runRaw raw st
    match jniCheckException r.2 with
    | (Except.ok _, st2) => (Except.ok r.1, st2)
    | (Except.error e, st2) => (Except.error e, st2)

/-- Sequencing of JNI computations (a thrown `JNIException` propagates). -/
def jniBind {α β : Type} (m : JniM α) (f : α → JniM β) : JniM β :=
  fun st =>
    match m st with
    | (Except.ok a, st2) => f a st2
    | (Except.error e, st2) => (Except.error e, st2)

/-- Abstract managed class reference. -/
abbrev JClass := Nat
/-- Abstract managed method id. -/
abbrev JMethodID := Nat
/-- Abstract managed field id. -/
abbrev JFieldID := Nat

/-- `jni::FindClass` (JNIHelper.hpp lines 78-82): raw `FindClass` then
`JNI_CHECK_EXCEPTION`. -/
def FindClass (raw : RawOutcome JClass) : JniM JClass :=
  checkedCall raw

/-- `jni::GetMethodID` (JNIHelper.hpp lines 85-89). -/
def GetMethodID (raw : RawOutcome JMethodID) : JniM JMethodID :=
  checkedCall raw

/-- `jni::GetStaticMethodID` (JNIHelper.hpp lines 92-96). -/
def GetStaticMethodID (raw : RawOutcome JMethodID) : JniM JMethodID :=
  checkedCall raw

/-- `jni::GetFieldID` (JNIHelper.hpp lines 99-103). -/
def GetFieldID (raw : RawOutcome JFieldID) : JniM JFieldID :=
  checkedCall raw

/-- `jni::GetStaticFieldID` (JNIHelper.hpp lines 106-110). -/
def GetStaticFieldID (raw : RawOutcome JFieldID) : JniM JFieldID :=
  checkedCall raw

/-- `jni::CallMethod` (JNIHelper.hpp lines 481-551): raw `GetObjectClass`
(not followed by a check), `jni::GetMethodID`, then the raw call followed by
`JNI_CHECK_EXCEPTION`. -/
def CallMethod {α : Type} (rawGetObjectClass : RawOutcome JClass)
    (rawMethodID : RawOutcome JMethodID) (rawCall : RawOutcome α) : JniM α :=
  jniBind (fun st => (Except.ok (runRaw rawGetObjectClass st).1, (runRaw rawGetObjectClass st).2))
    (fun _cls => jniBind (GetMethodID rawMethodID) (fun _mid => checkedCall rawCall))

/-- `jni::CallStaticMethod` (JNIHelper.hpp lines 554-624): `jni::FindClass`,
`jni::GetStaticMethodID`, then the raw call followed by a check. -/
def CallStaticMethod {α : Type} (rawFindClass : RawOutcome JClass)
    (rawMethodID : RawOutcome JMethodID) (rawCall : RawOutcome α) : JniM α :=
  jniBind (FindClass rawFindClass)
    (fun _cls => jniBind (GetStaticMethodID rawMethodID) (fun _mid => checkedCall rawCall))

/-- `jni::GetField` (JNIHelper.hpp lines 642-656): raw `GetObjectClass`
(not followed by a check), `jni::GetFieldID`, then the raw field read
followed by a check. -/
def GetField {α : Type} (rawGetObjectClass : RawOutcome JClass)
    (rawFieldID : RawOutcome JFieldID) (rawGet : RawOutcome α) : JniM α :=
  jniBind (fun st => (Except.ok (runRaw rawGetObjectClass st).1, (runRaw rawGetObjectClass st).2))
    (fun _cls => jniBind (GetFieldID rawFieldID) (fun _fid => checkedCall rawGet))

/-- `jni::GetStaticField` (JNIHelper.hpp lines 659-673): `jni::FindClass`,
`jni::GetStaticFieldID`, then the raw static field read followed by a check. -/
def GetStaticField {α : Type} (rawFindClass : RawOutcome JClass)
    (rawFieldID : RawOutcome JFieldID) (rawGet : RawOutcome α) : JniM α :=
  jniBind (FindClass rawFindClass)
    (fun _cls => jniBind (GetStaticFieldID rawFieldID) (fun _fid => checkedCall rawGet))

/-- `jni::NewObject` (JNIHelper.hpp lines 627-639): `jni::FindClass`,
`jni::GetMethodID` of the constructor, then the raw `NewObjectA` followed by a
check. -/
def NewObject {α : Type} (rawFindClass : RawOutcome JClass)
    (rawCtorID : RawOutcome JMethodID) (rawNew : RawOutcome α) : JniM α :=
  jniBind (FindClass rawFindClass)
    (fun _cls => jniBind (GetMethodID rawCtorID) (fun _ctor => checkedCall rawNew))

/-- A managed string reference as seen from JNI: either the null reference, or
a non-null reference whose `GetStringUTFChars` either fails to produce a
character buffer (`none`) or yields the string's characters (`some s`). -/
inductive JString where
  | null : JString
  | str : Option String → JString
deriving DecidableEq, Repr

/-- `jni::JStringToString` (JNIHelper.hpp lines 61-70): null reference and
unavailable character buffer both give the empty string; otherwise the
characters are copied out. -/
def JStringToString : JString → String
  | JString.null => ""
  | JString.str none => ""
  | JString.str (some chars) => chars

/-- Buffer events performed by `JStringToString`. -/
inductive StrEvent where
  | gotChars : StrEvent
  | releasedChars : StrEvent
deriving DecidableEq, Repr

/-- Instrumented `jni::JStringToString`: the returned string together with the
buffer acquire/release events the function performs.  A null reference makes
no JNI calls; a failed `GetStringUTFChars` acquires nothing releasable and
returns early; a successful one is paired with `ReleaseStringUTFChars`. -/
def JStringToStringEv : JString → String × List StrEvent
  | JString.null => ("", [])
  | JString.str none => ("", [StrEvent.gotChars])
  | JString.str (some chars) => (chars, [StrEvent.gotChars, StrEvent.releasedChars])

end jni

instance {ε α : Type} [DecidableEq ε] [DecidableEq α] : DecidableEq (Except ε α) :=
  fun x y =>
    match x, y with
    | Except.ok a, Except.ok b =>
        if h : a = b then Decidable.isTrue (by rw [h])
        else Decidable.isFalse (fun hc => h (Except.ok.inj hc))
    | Except.ok _, Except.error _ => Decidable.isFalse (fun hc => Except.noConfusion hc)
    | Except.error _, Except.ok _ => Decidable.isFalse (fun hc => Except.noConfusion hc)
    | Except.error a, Except.error b =>
        if h : a = b then Decidable.isTrue (by rw [h])
        else Decidable.isFalse (fun hc => h (Except.error.inj hc))

/-- The `catch (const std::exception)` wrapper common to all six probes: the
probe's try block either produces the accumulated `suspicious` flag or throws,
and the catch clause turns a thrown exception into `suspicious = true`. -/
def tryCatchB (body : Except jni.JNIException Bool) : Bool :=
  match body with
  | Except.ok suspicious => suspicious
  | Except.error _ => true

/-- Decidable error test for `Except`. -/
def excIsError {ε α : Type} (x : Except ε α) : Bool :=
  match x with
  | Except.ok _ => false
  | Except.error _ => true

/-- Does the character list `pfx` occur at the very start of `s`?  This embeds
the C++ idiom `s.find(pfx) == 0` (`std::string::find` returns the first
occurrence index, which is `0` exactly when `pfx` is a leading substring). -/
def leadsList : List Char → List Char → Bool
  | [], _ => true
  | _ :: _, [] => false
  | a :: pfxRest, b :: sRest => a == b && leadsList pfxRest sRest

/-- String version of `leadsList`. -/
def strStartsWith (s pfx : String) : Bool :=
  leadsList pfx.data s.data

/-- The last `n` characters of `s`, embedding `s.substr(s.length() - n)`. -/
def strTakeLast (s : String) (n : Nat) : String :=
  String.mk (s.data.drop (s.data.length - n))

/-- Character-count length of a string (embeds `std::string::length`). -/
def strLen (s : String) : Nat :=
  s.data.length

/-- Observations consumed by `checkCreator` (SignatureCheck.hpp lines 26-58):
the managed string returned by
`PackageInfo.CREATOR.getClass().getName()`, or the exception thrown by any
helper call in that chain. -/
structure CreatorEnv where
  jCreatorName : Except jni.JNIException jni.JString
deriving DecidableEq, Repr

/-- The try block of `checkCreator` (SignatureCheck.hpp lines 32-51). -/
def checkCreatorBody (e : CreatorEnv) : Except jni.JNIException Bool :=
  e.jCreatorName.bind fun jCreatorName =>
    let currentCreatorName := jni.JStringToString jCreatorName
    let suspicious := false
    let suspicious :=
      if !(strStartsWith currentCreatorName "android.content.pm.PackageInfo$") then true
      else suspicious
    let suspicious :=
      if "android.content.pm.PackageInfo$1" != currentCreatorName then true
      else suspicious
    Except.ok suspicious

/-- `checkCreator` (SignatureCheck.hpp lines 26-58). -/
def checkCreator (e : CreatorEnv) : Bool :=
  tryCatchB (checkCreatorBody e)

/-- Observations consumed by `checkField` (SignatureCheck.hpp lines 61-94):
the declared-field count of `PackageInfo.CREATOR.getClass()` (or the exception
thrown obtaining it), and the name lookup outcome for each declared field
index (used by the logging loop; those lookups can also throw). -/
structure FieldEnv where
  fieldCount : Except jni.JNIException Nat
  fieldName : Nat → Except jni.JNIException jni.JString

/-- The logging loop of `checkField` (SignatureCheck.hpp lines 76-82): fetch
each declared field's name in index order; the first thrown exception
propagates. -/
def logFieldNames (e : FieldEnv) : List Nat → Except jni.JNIException Unit
  | [] => Except.ok ()
  | i :: rest => (e.fieldName i).bind fun _fieldName => logFieldNames e rest

/-- The try block of `checkField` (SignatureCheck.hpp lines 64-87). -/
def checkFieldBody (e : FieldEnv) : Except jni.JNIException Bool :=
  e.fieldCount.bind fun fieldCount =>
    if fieldCount > 0 then
      (logFieldNames e (List.range fieldCount)).bind fun _ => Except.ok true
    else
      Except.ok false

/-- `checkField` (SignatureCheck.hpp lines 61-94). -/
def checkField (e : FieldEnv) : Bool :=
  tryCatchB (checkFieldBody e)

/-- Abstract reference to a (non-null) class-loader object. -/
abbrev LoaderRef := Nat

/-- Observations consumed by `checkCreators` (SignatureCheck.hpp lines
96-147): the `toString` of `PackageInfo.CREATOR`, the creator class's class
loader and the system class loader (each possibly the null reference), and the
class name of any non-null loader (via `getClass().getName()`). -/
structure CreatorsEnv where
  jCreatorString : Except jni.JNIException jni.JString
  creatorClassloader : Except jni.JNIException (Option LoaderRef)
  sysClassloader : Except jni.JNIException (Option LoaderRef)
  loaderClassName : LoaderRef → Except jni.JNIException jni.JString

/-- Invoking `getClass` on a null object reference is modelled as a thrown
NullPointerException captured by the helper layer. -/
def nullCallExc : jni.JNIException :=
  ⟨"JNI exception occurred", some ⟨0⟩⟩

/-- `loader.getClass().getName()` for a possibly-null loader reference: a call
on the null reference throws, otherwise the environment supplies the name. -/
def loaderGetClassName (e : CreatorsEnv) (loader : Option LoaderRef) :
    Except jni.JNIException jni.JString :=
  match loader with
  | none => Except.error nullCallExc
  | some r => e.loaderClassName r

/-- The try block of `checkCreators` (SignatureCheck.hpp lines 99-140). -/
def checkCreatorsBody (e : CreatorsEnv) : Except jni.JNIException Bool :=
  e.jCreatorString.bind fun jCreatorString =>
    let creatorString := jni.JStringToString jCreatorString
    let suspicious := false
    let suspicious :=
      if creatorString != "" then
        if !(strStartsWith creatorString "android.content.pm.PackageInfo$") then true
        else suspicious
      else suspicious
    e.creatorClassloader.bind fun creatorClassloader =>
      e.sysClassloader.bind fun sysClassloader =>
        (loaderGetClassName e creatorClassloader).bind fun jCreatorClassloaderName =>
          (loaderGetClassName e sysClassloader).bind fun jSysClassloaderName =>
            let creatorClassloaderName := jni.JStringToString jCreatorClassloaderName
            let sysClassloaderName := jni.JStringToString jSysClassloaderName
            let suspicious :=
              if creatorClassloader = none ∨ sysClassloader = none then true
              else if sysClassloaderName == creatorClassloaderName then true
              else suspicious
            Except.ok suspicious

/-- `checkCreators` (SignatureCheck.hpp lines 96-147). -/
def checkCreators (e : CreatorsEnv) : Bool :=
  tryCatchB (checkCreatorsBody e)

/-- Observations consumed by `checkPMProxy` (SignatureCheck.hpp lines
149-186): the class name of the package manager's `mPM` field contents
(reached through `getPackageManager`, `getDeclaredField("mPM")`,
`setAccessible(true)`, `get`, `getClass`, `getName`), or the exception thrown
anywhere in that chain. -/
structure PmEnv where
  jPMName : Except jni.JNIException jni.JString
deriving DecidableEq, Repr

/-- The try block of `checkPMProxy` (SignatureCheck.hpp lines 154-178). -/
def checkPMProxyBody (e : PmEnv) : Except jni.JNIException Bool :=
  e.jPMName.bind fun jPMName =>
    let currentPMName := jni.JStringToString jPMName
    let suspicious := false
    let suspicious :=
      if "android.content.pm.IPackageManager$Stub$Proxy" != currentPMName then true
      else suspicious
    Except.ok suspicious

/-- `checkPMProxy` (SignatureCheck.hpp lines 149-186). -/
def checkPMProxy (e : PmEnv) : Bool :=
  tryCatchB (checkPMProxyBody e)

/-- Abstract reference to a (non-null) application object. -/
abbrev AppRef := Nat

/-- Observations consumed by `checkAppComponentFactory` (SignatureCheck.hpp
lines 221-254): the outcome of `getApplication` (a possibly-null application
reference, or a thrown exception), the `getApplicationInfo()` call on it, and
the `appComponentFactory` field read (a possibly-null managed string). -/
structure AcfEnv where
  application : Except jni.JNIException (Option AppRef)
  applicationInfo : Except jni.JNIException Unit
  jAppComponentFactory : Except jni.JNIException jni.JString

/-- `getApplication` (SignatureCheck.hpp lines 188-196): its own catch clause
turns any thrown exception into a null return. -/
def getApplication (e : AcfEnv) : Option AppRef :=
  match e.application with
  | Except.ok app => app
  | Except.error _ => none

/-- The try block of `checkAppComponentFactory` (SignatureCheck.hpp lines
226-247).  A null application and a null `appComponentFactory` field are both
silently skipped. -/
def checkAppComponentFactoryBody (e : AcfEnv) : Except jni.JNIException Bool :=
  let originalAppComponentFactory := "androidx.core.app.CoreComponentFactory"
  match getApplication e with
  | some _application =>
      e.applicationInfo.bind fun _applicationInfo =>
        e.jAppComponentFactory.bind fun jAppComponentFactory =>
          if jAppComponentFactory ≠ jni.JString.null then
            let appComponentFactory := jni.JStringToString jAppComponentFactory
            let suspicious :=
              if appComponentFactory != originalAppComponentFactory then true
              else false
            Except.ok suspicious
          else
            Except.ok false
  | none => Except.ok false

/-- `checkAppComponentFactory` (SignatureCheck.hpp lines 221-254). -/
def checkAppComponentFactory (e : AcfEnv) : Bool :=
  tryCatchB (checkAppComponentFactoryBody e)

/-- Stat metadata of a file: the full `st_mode` and the owner uid.  The probe
only ever inspects `st_mode & 0777`, embedded as `mode % 0o1000` (masking the
low nine bits is exactly reduction modulo octal 1000). -/
structure FileMeta where
  mode : Nat
  uid : Nat
deriving DecidableEq, Repr

/-- The filesystem as observed through `stat`: path to metadata, `none` when
`stat` fails on the path. -/
def FS : Type := String → Option FileMeta

/-- `chmod(p, bits)` on a filesystem: replace the permission bits (the low
nine bits of `st_mode`) of `p`, leaving every other path untouched. -/
def setMode (fs : FS) (p : String) (bits : Nat) : FS :=
  fun q =>
    if q = p then (fs q).map (fun m => ⟨m.mode - m.mode % 0o1000 + bits, m.uid⟩)
    else fs q

/-- Observations consumed by `checkApkPaths` (SignatureCheck.hpp lines
270-407): the five managed path strings it gathers (each `Except` covers the
helper-call chain leading to that string), the `sourceDir` fetched inside
`getApkPath`, and which paths `chmod` succeeds on (a property of process
privilege and file ownership, independent of the requested mode). -/
structure ApkEnv where
  jResourcePath : Except jni.JNIException jni.JString
  jCodePath : Except jni.JNIException jni.JString
  jSourceDir : Except jni.JNIException jni.JString
  jPublicSourceDir : Except jni.JNIException jni.JString
  jPackageInfoSourceDir : Except jni.JNIException jni.JString
  jNativeSourceDir : Except jni.JNIException jni.JString
  chmodOk : String → Bool

/-- `getApkPath` (SignatureCheck.hpp lines 256-267): its own catch clause
turns any thrown exception into an empty string. -/
def getApkPath (e : ApkEnv) : String :=
  match e.jNativeSourceDir with
  | Except.ok jSourceDir => jni.JStringToString jSourceDir
  | Except.error _ => ""

/-- The stat/permission loop of `checkApkPaths` (SignatureCheck.hpp lines
369-399), threading the filesystem: for each path, a failed `stat` is
suspicious; otherwise wrong permission bits or wrong owner are suspicious, and
a successful `chmod` to 0777 is suspicious (followed by a `chmod` back to
0644). -/
def permLoop (chmodOk : String → Bool) : List String → Bool → FS → Bool × FS
  | [], suspicious, fs => (suspicious, fs)
  | path :: rest, suspicious, fs =>
      match fs path with
      | some st =>
          let correctPermissions := st.mode % 0o1000 == 0o644
          let correctOwner := st.uid == 1000
          let suspicious := if !correctPermissions then true else suspicious
          let suspicious := if !correctOwner then true else suspicious
          let canChangePermissions := chmodOk path
          if canChangePermissions then
            let fs := setMode fs path 0o777
            let fs := setMode fs path 0o644
            permLoop chmodOk rest true fs
          else
            permLoop chmodOk rest suspicious fs
      | none => permLoop chmodOk rest true fs

/-- The try block of `checkApkPaths` (SignatureCheck.hpp lines 273-399). -/
def checkApkPathsBody (e : ApkEnv) (fs : FS) :
    Except jni.JNIException (Bool × FS) :=
  e.jResourcePath.bind fun jResourcePath =>
    let resourcePath := jni.JStringToString jResourcePath
    e.jCodePath.bind fun jCodePath =>
      let codePath := jni.JStringToString jCodePath
      e.jSourceDir.bind fun jSourceDir =>
        let sourceDir := jni.JStringToString jSourceDir
        e.jPublicSourceDir.bind fun jPublicSourceDir =>
          let publicSourceDir := jni.JStringToString jPublicSourceDir
          e.jPackageInfoSourceDir.bind fun jPackageInfoSourceDir =>
            let packageInfoSourceDir := jni.JStringToString jPackageInfoSourceDir
            let nativeApkPath := getApkPath e
            let paths :=
              [resourcePath, codePath, sourceDir, publicSourceDir, packageInfoSourceDir] ++
                (if nativeApkPath != "" then [nativeApkPath] else [])
            let suspicious := false
            let suspicious :=
              suspicious || (paths.drop 1).any (fun p => p != resourcePath)
            let suspicious :=
              suspicious || paths.any (fun p => !(strStartsWith p "/data/app/"))
            let suspicious :=
              suspicious ||
                paths.any (fun p => decide (strLen p < 9) || (strTakeLast p 9 != "/base.apk"))
            Except.ok (permLoop e.chmodOk paths suspicious fs)

/-- `checkApkPaths` (SignatureCheck.hpp lines 270-407): the catch clause
returns `suspicious = true`; every throw site precedes the first filesystem
operation, so on that path the filesystem is unchanged. -/
def checkApkPaths (e : ApkEnv) (fs : FS) : Bool × FS :=
  match checkApkPathsBody e fs with
  | Except.ok r => r
  | Except.error _ => (true, fs)

/-- The full observation environment of `checkSignatureBypass`: one
sub-environment per probe. -/
structure SigEnv where
  creator : CreatorEnv
  field : FieldEnv
  creators : CreatorsEnv
  pmProxy : PmEnv
  acf : AcfEnv
  apk : ApkEnv

/-- `checkSignatureBypass` (SignatureCheck.hpp lines 409-425): the six probes
run in sequence and their results are OR-ed with `|=` (which, unlike `||`,
evaluates its right-hand side unconditionally). -/
def checkSignatureBypass (e : SigEnv) (fs : FS) : Bool × FS :=
  let suspicious := false
  let suspicious := suspicious || checkCreator e.creator
  let suspicious := suspicious || checkField e.field
  let suspicious := suspicious || checkCreators e.creators
  let suspicious := suspicious || checkPMProxy e.pmProxy
  let suspicious := suspicious || checkAppComponentFactory e.acf
  let apkResult := checkApkPaths e.apk fs
  let suspicious := suspicious || apkResult.1
  (suspicious, apkResult.2)

/-- Names of the six probes, in the order `checkSignatureBypass` lists them. -/
inductive ProbeId where
  | creator : ProbeId
  | field : ProbeId
  | creators : ProbeId
  | pmProxy : ProbeId
  | appComponentFactory : ProbeId
  | apkPaths : ProbeId
deriving DecidableEq, Repr

/-- One `suspicious |= probe(...)` statement, recording the probe invocation:
the accumulator is OR-ed with the probe's result and the probe's name is
appended to the invocation log. -/
def stepProbe (acc : Bool × List ProbeId) (p : ProbeId) (r : Bool) :
    Bool × List ProbeId :=
  (acc.1 || r, acc.2 ++ [p])

/-- `checkSignatureBypass` instrumented with an invocation log: the same
straight-line sequence of six `|=` statements, each one recorded. -/
def checkSignatureBypassTraced (e : SigEnv) (fs : FS) :
    Bool × FS × List ProbeId :=
  let acc : Bool × List ProbeId := (false, [])
  let acc := stepProbe acc ProbeId.creator (checkCreator e.creator)
  let acc := stepProbe acc ProbeId.field (checkField e.field)
  let acc := stepProbe acc ProbeId.creators (checkCreators e.creators)
  let acc := stepProbe acc ProbeId.pmProxy (checkPMProxy e.pmProxy)
  let acc := stepProbe acc ProbeId.appComponentFactory (checkAppComponentFactory e.acf)
  let apkResult := checkApkPaths e.apk fs
  let acc := stepProbe acc ProbeId.apkPaths apkResult.1
  (acc.1, apkResult.2, acc.2)

/-- The C++ string a gathered managed string milestone yields (empty when the
reference was null or the buffer unavailable; unreachable on the error case,
listed only to make the function total). -/
def pathString (x : Except jni.JNIException jni.JString) : String :=
  match x with
  | Except.ok js => jni.JStringToString js
  | Except.error _ => ""

/-- The APK path list `checkApkPaths` collects when no exception interrupts
the gathering: the five managed paths, plus the native path when non-empty. -/
def apkCollectedPaths (e : ApkEnv) : List String :=
  [pathString e.jResourcePath, pathString e.jCodePath, pathString e.jSourceDir,
   pathString e.jPublicSourceDir, pathString e.jPackageInfoSourceDir] ++
    (if getApkPath e != "" then [getApkPath e] else [])

/-- Did an exception interrupt the path gathering of `checkApkPaths`?  (The
native-path fetch is excluded: `getApkPath` swallows its own exceptions.) -/
def apkGatherError (e : ApkEnv) : Bool :=
  excIsError e.jResourcePath || excIsError e.jCodePath || excIsError e.jSourceDir ||
    excIsError e.jPublicSourceDir || excIsError e.jPackageInfoSourceDir

/-- Is path `p` flagged by the stat/permission loop when examined on
filesystem `fs`: `stat` fails, or the permission bits are not 0644, or the
owner is not uid 1000, or `chmod` succeeds on it. -/
def badPerm (chmodOk : String → Bool) (fs : FS) (p : String) : Bool :=
  match fs p with
  | none => true
  | some m => (m.mode % 0o1000 != 0o644) || (m.uid != 1000) || chmodOk p

/-- The suspicion condition claimed for `checkApkPaths`, stated over the
probe's entry filesystem: an exception during the checks, or some collected
path that differs from the first collected path, does not start with
"/data/app/", does not end with "/base.apk", cannot be stat-ed, has permission
bits other than 0644 or owner other than uid 1000, or can be chmod-ed. -/
def apkSuspSpec (e : ApkEnv) (fs : FS) : Prop :=
  apkGatherError e = true ∨
    ∃ p ∈ apkCollectedPaths e,
      p ≠ pathString e.jResourcePath ∨
      strStartsWith p "/data/app/" = false ∨
      ¬ (9 ≤ strLen p ∧ strTakeLast p 9 = "/base.apk") ∨
      fs p = none ∨
      (∃ m, fs p = some m ∧ (m.mode % 0o1000 ≠ 0o644 ∨ m.uid ≠ 1000)) ∨
      ((fs p).isSome = true ∧ e.chmodOk p = true)

/-- The suspicion condition claimed for `checkCreators`: an exception is
thrown, or the non-empty creator `toString` lacks the expected package-name
lead, or a class loader is the null reference, or the two class loaders have
the same class name. -/
def creatorsSuspSpec (e : CreatorsEnv) : Prop :=
  excIsError (checkCreatorsBody e) = true ∨
  (∃ js, e.jCreatorString = Except.ok js ∧ jni.JStringToString js ≠ "" ∧
    strStartsWith (jni.JStringToString js) "android.content.pm.PackageInfo$" = false) ∨
  e.creatorClassloader = Except.ok none ∨ e.sysClassloader = Except.ok none ∨
  (∃ l1, e.creatorClassloader = Except.ok (some l1) ∧
    ∃ l2, e.sysClassloader = Except.ok (some l2) ∧
      ∃ n1, e.loaderClassName l1 = Except.ok n1 ∧
        ∃ n2, e.loaderClassName l2 = Except.ok n2 ∧
          jni.JStringToString n2 = jni.JStringToString n1)

/-- Is the stat/permission pass over path `p` guaranteed not to change `fs` at
`p`: either `stat` fails (no `chmod` is attempted), or `chmod` fails, or the
permission bits already are 0644 (so the final `chmod` to 0644 restores the
original mode exactly). -/
def preservesAt (chmodOk : String → Bool) (fs : FS) (p : String) : Bool :=
  match fs p with
  | none => true
  | some m => !(chmodOk p) || (m.mode % 0o1000 == 0o644)

/-- A thrown JNI exception used by concrete test environments. -/
def exc0 : jni.JNIException :=
  ⟨"JNI exception occurred", some ⟨1⟩⟩

/-- A well-formed APK path used by concrete test environments. -/
def exApkPath : String :=
  "/data/app/com.example.checkbeer/base.apk"

/-- A concrete environment in which every managed call succeeds and every
collected path is `exApkPath`. -/
def exApkEnv : ApkEnv :=
  ⟨Except.ok (jni.JString.str (some exApkPath)),
   Except.ok (jni.JString.str (some exApkPath)),
   Except.ok (jni.JString.str (some exApkPath)),
   Except.ok (jni.JString.str (some exApkPath)),
   Except.ok (jni.JString.str (some exApkPath)),
   Except.ok (jni.JString.str (some exApkPath)),
   fun _ => true⟩

/-- A filesystem in which `exApkPath` exists with permission bits 0600 (not
0644) owned by uid 1000, and `chmod` succeeds (see `exApkEnv`). -/
def exFs600 : FS :=
  fun q => if q = exApkPath then some ⟨0o600, 1000⟩ else none

/-- A filesystem in which `exApkPath` exists with permission bits 0644 owned
by uid 1000. -/
def exFs644 : FS :=
  fun q => if q = exApkPath then some ⟨0o644, 1000⟩ else none

/-- A probe environment whose first managed call throws, for each probe. -/
def exCreatorEnvErr : CreatorEnv :=
  ⟨Except.error exc0⟩

/-- See `exCreatorEnvErr`. -/
def exFieldEnvErr : FieldEnv :=
  ⟨Except.error exc0, fun _ => Except.error exc0⟩

/-- See `exCreatorEnvErr`. -/
def exCreatorsEnvErr : CreatorsEnv :=
  ⟨Except.error exc0, Except.error exc0, Except.error exc0, fun _ => Except.error exc0⟩

/-- See `exCreatorEnvErr`. -/
def exPmEnvErr : PmEnv :=
  ⟨Except.error exc0⟩

/-- An environment in which the application is obtained but the call on it
throws. -/
def exAcfEnvErr : AcfEnv :=
  ⟨Except.ok (some 0), Except.error exc0, Except.error exc0⟩

/-- See `exCreatorEnvErr`. -/
def exApkEnvErr : ApkEnv :=
  ⟨Except.error exc0, Except.error exc0, Except.error exc0, Except.error exc0,
   Except.error exc0, Except.error exc0, fun _ => false⟩

theorem aux_checkedCall_pending {α : Type} (raw : jni.RawOutcome α) (st : jni.JNIState) :
    ((jni.checkedCall raw) st).2.pending = none := by
  rcases raw with ⟨v, exc⟩
  rcases st with ⟨p⟩
  cases exc <;> cases p <;> rfl

theorem aux_callShape_pending {α : Type} (r1 : jni.RawOutcome jni.JClass)
    (r2 : jni.RawOutcome Nat) (r3 : jni.RawOutcome α) (st : jni.JNIState) :
    ((jni.jniBind
        (fun st => (Except.ok (jni.runRaw r1 st).1, (jni.runRaw r1 st).2))
        (fun _ => jni.jniBind (jni.checkedCall r2) (fun _ => jni.checkedCall r3))) st).2.pending
      = none := by
  rcases r1 with ⟨v1, e1⟩
  rcases r2 with ⟨v2, e2⟩
  rcases r3 with ⟨v3, e3⟩
  rcases st with ⟨p⟩
  cases e1 <;> cases e2 <;> cases e3 <;> cases p <;> rfl

theorem aux_staticShape_pending {α : Type} (r1 : jni.RawOutcome jni.JClass)
    (r2 : jni.RawOutcome Nat) (r3 : jni.RawOutcome α) (st : jni.JNIState) :
    ((jni.jniBind (jni.checkedCall r1)
        (fun _ => jni.jniBind (jni.checkedCall r2) (fun _ => jni.checkedCall r3))) st).2.pending
      = none := by
  rcases r1 with ⟨v1, e1⟩
  rcases r2 with ⟨v2, e2⟩
  rcases r3 with ⟨v3, e3⟩
  rcases st with ⟨p⟩
  cases e1 <;> cases e2 <;> cases e3 <;> cases p <;> rfl

/-- Claim C7: every jni helper runs `JNI_CHECK_EXCEPTION` after its raw
foreign calls, so (first member of each triple) no pending managed exception
ever survives a helper call, whatever the raw calls and the entry state;
(second member) when the final raw call leaves a pending throwable, the helper
clears it and throws a `JNIException` carrying exactly that throwable; (third
member) when no call leaves a pending exception, the helper returns the raw
call's result and throws nothing. -/
theorem claim7_helper_exception_bookkeeping :
    (∀ (raw : jni.RawOutcome jni.JClass) (st : jni.JNIState),
      ((jni.FindClass raw) st).2.pending = none) ∧
    (∀ (v : jni.JClass) (ex : jni.Throwable) (st : jni.JNIState),
      jni.FindClass ⟨v, some ex⟩ st =
        (Except.error ⟨"JNI exception occurred", some ex⟩, ⟨none⟩)) ∧
    (∀ v : jni.JClass, jni.FindClass ⟨v, none⟩ ⟨none⟩ = (Except.ok v, ⟨none⟩)) ∧
    (∀ (raw : jni.RawOutcome jni.JMethodID) (st : jni.JNIState),
      ((jni.GetMethodID raw) st).2.pending = none) ∧
    (∀ (v : jni.JMethodID) (ex : jni.Throwable) (st : jni.JNIState),
      jni.GetMethodID ⟨v, some ex⟩ st =
        (Except.error ⟨"JNI exception occurred", some ex⟩, ⟨none⟩)) ∧
    (∀ v : jni.JMethodID, jni.GetMethodID ⟨v, none⟩ ⟨none⟩ = (Except.ok v, ⟨none⟩)) ∧
    (∀ (raw : jni.RawOutcome jni.JMethodID) (st : jni.JNIState),
      ((jni.GetStaticMethodID raw) st).2.pending = none) ∧
    (∀ (v : jni.JMethodID) (ex : jni.Throwable) (st : jni.JNIState),
      jni.GetStaticMethodID ⟨v, some ex⟩ st =
        (Except.error ⟨"JNI exception occurred", some ex⟩, ⟨none⟩)) ∧
    (∀ v : jni.JMethodID, jni.GetStaticMethodID ⟨v, none⟩ ⟨none⟩ = (Except.ok v, ⟨none⟩)) ∧
    (∀ (raw : jni.RawOutcome jni.JFieldID) (st : jni.JNIState),
      ((jni.GetFieldID raw) st).2.pending = none) ∧
    (∀ (v : jni.JFieldID) (ex : jni.Throwable) (st : jni.JNIState),
      jni.GetFieldID ⟨v, some ex⟩ st =
        (Except.error ⟨"JNI exception occurred", some ex⟩, ⟨none⟩)) ∧
    (∀ v : jni.JFieldID, jni.GetFieldID ⟨v, none⟩ ⟨none⟩ = (Except.ok v, ⟨none⟩)) ∧
    (∀ (raw : jni.RawOutcome jni.JFieldID) (st : jni.JNIState),
      ((jni.GetStaticFieldID raw) st).2.pending = none) ∧
    (∀ (v : jni.JFieldID) (ex : jni.Throwable) (st : jni.JNIState),
      jni.GetStaticFieldID ⟨v, some ex⟩ st =
        (Except.error ⟨"JNI exception occurred", some ex⟩, ⟨none⟩)) ∧
    (∀ v : jni.JFieldID, jni.GetStaticFieldID ⟨v, none⟩ ⟨none⟩ = (Except.ok v, ⟨none⟩)) ∧
    (∀ (α : Type) (r1 : jni.RawOutcome jni.JClass) (r2 : jni.RawOutcome jni.JMethodID)
        (r3 : jni.RawOutcome α) (st : jni.JNIState),
      ((jni.CallMethod r1 r2 r3) st).2.pending = none) ∧
    (∀ (α : Type) (c : jni.JClass) (m : jni.JMethodID) (v : α) (ex : jni.Throwable),
      jni.CallMethod ⟨c, none⟩ ⟨m, none⟩ ⟨v, some ex⟩ ⟨none⟩ =
        (Except.error ⟨"JNI exception occurred", some ex⟩, ⟨none⟩)) ∧
    (∀ (α : Type) (c : jni.JClass) (m : jni.JMethodID) (v : α),
      jni.CallMethod ⟨c, none⟩ ⟨m, none⟩ ⟨v, none⟩ ⟨none⟩ = (Except.ok v, ⟨none⟩)) ∧
    (∀ (α : Type) (r1 : jni.RawOutcome jni.JClass) (r2 : jni.RawOutcome jni.JMethodID)
        (r3 : jni.RawOutcome α) (st : jni.JNIState),
      ((jni.CallStaticMethod r1 r2 r3) st).2.pending = none) ∧
    (∀ (α : Type) (c : jni.JClass) (m : jni.JMethodID) (v : α) (ex : jni.Throwable),
      jni.CallStaticMethod ⟨c, none⟩ ⟨m, none⟩ ⟨v, some ex⟩ ⟨none⟩ =
        (Except.error ⟨"JNI exception occurred", some ex⟩, ⟨none⟩)) ∧
    (∀ (α : Type) (c : jni.JClass) (m : jni.JMethodID) (v : α),
      jni.CallStaticMethod ⟨c, none⟩ ⟨m, none⟩ ⟨v, none⟩ ⟨none⟩ = (Except.ok v, ⟨none⟩)) ∧
    (∀ (α : Type) (r1 : jni.RawOutcome jni.JClass) (r2 : jni.RawOutcome jni.JFieldID)
        (r3 : jni.RawOutcome α) (st : jni.JNIState),
      ((jni.GetField r1 r2 r3) st).2.pending = none) ∧
    (∀ (α : Type) (c : jni.JClass) (f : jni.JFieldID) (v : α) (ex : jni.Throwable),
      jni.GetField ⟨c, none⟩ ⟨f, none⟩ ⟨v, some ex⟩ ⟨none⟩ =
        (Except.error ⟨"JNI exception occurred", some ex⟩, ⟨none⟩)) ∧
    (∀ (α : Type) (c : jni.JClass) (f : jni.JFieldID) (v : α),
      jni.GetField ⟨c, none⟩ ⟨f, none⟩ ⟨v, none⟩ ⟨none⟩ = (Except.ok v, ⟨none⟩)) ∧
    (∀ (α : Type) (r1 : jni.RawOutcome jni.JClass) (r2 : jni.RawOutcome jni.JFieldID)
        (r3 : jni.RawOutcome α) (st : jni.JNIState),
      ((jni.GetStaticField r1 r2 r3) st).2.pending = none) ∧
    (∀ (α : Type) (c : jni.JClass) (f : jni.JFieldID) (v : α) (ex : jni.Throwable),
      jni.GetStaticField ⟨c, none⟩ ⟨f, none⟩ ⟨v, some ex⟩ ⟨none⟩ =
        (Except.error ⟨"JNI exception occurred", some ex⟩, ⟨none⟩)) ∧
    (∀ (α : Type) (c : jni.JClass) (f : jni.JFieldID) (v : α),
      jni.GetStaticField ⟨c, none⟩ ⟨f, none⟩ ⟨v, none⟩ ⟨none⟩ = (Except.ok v, ⟨none⟩)) ∧
    (∀ (α : Type) (r1 : jni.RawOutcome jni.JClass) (r2 : jni.RawOutcome jni.JMethodID)
        (r3 : jni.RawOutcome α) (st : jni.JNIState),
      ((jni.NewObject r1 r2 r3) st).2.pending = none) ∧
    (∀ (α : Type) (c : jni.JClass) (m : jni.JMethodID) (v : α) (ex : jni.Throwable),
      jni.NewObject ⟨c, none⟩ ⟨m, none⟩ ⟨v, some ex⟩ ⟨none⟩ =
        (Except.error ⟨"JNI exception occurred", some ex⟩, ⟨none⟩)) ∧
    (∀ (α : Type) (c : jni.JClass) (m : jni.JMethodID) (v : α),
      jni.NewObject ⟨c, none⟩ ⟨m, none⟩ ⟨v, none⟩ ⟨none⟩ = (Except.ok v, ⟨none⟩)) := by
  refine ⟨fun raw st => aux_checkedCall_pending raw st, fun v ex st => ?_, fun v => rfl,
    fun raw st => aux_checkedCall_pending raw st, fun v ex st => ?_, fun v => rfl,
    fun raw st => aux_checkedCall_pending raw st, fun v ex st => ?_, fun v => rfl,
    fun raw st => aux_checkedCall_pending raw st, fun v ex st => ?_, fun v => rfl,
    fun raw st => aux_checkedCall_pending raw st, fun v ex st => ?_, fun v => rfl,
    fun α r1 r2 r3 st => aux_callShape_pending r1 r2 r3 st,
    fun α c m v ex => rfl, fun α c m v => rfl,
    fun α r1 r2 r3 st => aux_staticShape_pending r1 r2 r3 st,
    fun α c m v ex => rfl, fun α c m v => rfl,
    fun α r1 r2 r3 st => aux_callShape_pending r1 r2 r3 st,
    fun α c f v ex => rfl, fun α c f v => rfl,
    fun α r1 r2 r3 st => aux_staticShape_pending r1 r2 r3 st,
    fun α c f v ex => rfl, fun α c f v => rfl,
    fun α r1 r2 r3 st => aux_staticShape_pending r1 r2 r3 st,
    fun α c m v ex => rfl, fun α c m v => rfl⟩ <;>
  · rcases st with ⟨p⟩
    cases p <;> rfl

/-- Claim C1: `checkSignatureBypass` returns the inclusive OR of the six
probes' results (true exactly when at least one probe reports suspicious), and
its instrumented version shows the six probes are each invoked exactly once,
in the fixed source order, regardless of the individual results. -/
theorem claim1_or_of_probes_fixed_order (e : SigEnv) (fs : FS) :
    (checkSignatureBypass e fs).1 =
      (checkCreator e.creator || checkField e.field || checkCreators e.creators ||
        checkPMProxy e.pmProxy || checkAppComponentFactory e.acf ||
        (checkApkPaths e.apk fs).1) ∧
    checkSignatureBypassTraced e fs =
      ((checkSignatureBypass e fs).1, (checkSignatureBypass e fs).2,
        [ProbeId.creator, ProbeId.field, ProbeId.creators, ProbeId.pmProxy,
         ProbeId.appComponentFactory, ProbeId.apkPaths]) := by
  exact ⟨rfl, rfl⟩

/-- Claim C10: `jni::JStringToString` is total at its public interface: a null
string reference and an unobtainable character buffer both yield the empty
string (without acquiring, respectively releasing, a buffer), and a non-null
string whose characters are obtained yields exactly those characters with the
buffer released. -/
theorem claim10_jstring_to_string_total :
    jni.JStringToString jni.JString.null = "" ∧
    jni.JStringToString (jni.JString.str none) = "" ∧
    (∀ s : String, jni.JStringToString (jni.JString.str (some s)) = s) ∧
    jni.JStringToStringEv jni.JString.null = ("", []) ∧
    jni.JStringToStringEv (jni.JString.str none) = ("", [jni.StrEvent.gotChars]) ∧
    (∀ s : String, jni.JStringToStringEv (jni.JString.str (some s)) =
      (s, [jni.StrEvent.gotChars, jni.StrEvent.releasedChars])) ∧
    (∀ js : jni.JString, jni.JStringToString js = (jni.JStringToStringEv js).1) := by
  refine ⟨rfl, rfl, fun s => rfl, rfl, rfl, fun s => rfl, fun js => ?_⟩
  cases js with
  | null => rfl
  | str o => cases o <;> rfl

/-- Claim C4: `checkCreator` returns suspicious = false exactly when the class
name of `PackageInfo.CREATOR` obtained from the runtime equals the hard-coded
"android.content.pm.PackageInfo$1" and no exception is thrown; any mismatch
(or exception) yields suspicious = true. -/
theorem claim4_creator_name_exact_match (e : CreatorEnv) :
    checkCreator e = false ↔
      ∃ js, e.jCreatorName = Except.ok js ∧
        jni.JStringToString js = "android.content.pm.PackageInfo$1" := by
  rcases e with ⟨jn⟩
  cases jn with
  | error ex => simp [checkCreator, checkCreatorBody, tryCatchB, Except.bind]
  | ok js =>
      simp only [checkCreator, checkCreatorBody, Except.bind, tryCatchB, Except.ok.injEq,
        exists_eq_left']
      generalize jni.JStringToString js = s
      by_cases h : s = "android.content.pm.PackageInfo$1"
      · subst h
        decide
      · have hb : ("android.content.pm.PackageInfo$1" != s) = true := by
          simp [bne_iff_ne]
          exact fun hc => h hc.symm
        simp [hb, h]

/-- Claim C5: `checkField` returns suspicious = true exactly when the declared
field count of the CREATOR class exceeds the expected count of zero or an
exception is thrown; a zero count with no exception returns false. -/
theorem claim5_field_count_zero (e : FieldEnv) :
    checkField e = true ↔
      excIsError e.fieldCount = true ∨ ∃ n, e.fieldCount = Except.ok n ∧ 0 < n := by
  cases hfc : e.fieldCount with
  | error ex => simp [checkField, checkFieldBody, tryCatchB, hfc, excIsError, Except.bind]
  | ok n =>
      simp only [checkField, checkFieldBody, hfc, Except.bind, excIsError, Except.ok.injEq,
        exists_eq_left]
      cases n with
      | zero => simp [tryCatchB]
      | succ k =>
          cases hl : logFieldNames e (List.range (k + 1)) with
          | ok u => simp [tryCatchB, hl, Except.bind]
          | error ex => simp [tryCatchB, hl, Except.bind]

/-- Claim C8: every probe fails closed: whenever the probe's try block throws
(the embedded body returns an error), the probe's catch clause makes it return
suspicious = true — for `checkApkPaths`, with the filesystem untouched. -/
theorem claim8_probes_fail_closed :
    (∀ (e : CreatorEnv) (ex : jni.JNIException),
      checkCreatorBody e = Except.error ex → checkCreator e = true) ∧
    (∀ (e : FieldEnv) (ex : jni.JNIException),
      checkFieldBody e = Except.error ex → checkField e = true) ∧
    (∀ (e : CreatorsEnv) (ex : jni.JNIException),
      checkCreatorsBody e = Except.error ex → checkCreators e = true) ∧
    (∀ (e : PmEnv) (ex : jni.JNIException),
      checkPMProxyBody e = Except.error ex → checkPMProxy e = true) ∧
    (∀ (e : AcfEnv) (ex : jni.JNIException),
      checkAppComponentFactoryBody e = Except.error ex →
        checkAppComponentFactory e = true) ∧
    (∀ (e : ApkEnv) (fs : FS) (ex : jni.JNIException),
      checkApkPathsBody e fs = Except.error ex →
        checkApkPaths e fs = (true, fs)) := by
  refine ⟨fun e ex h => ?_, fun e ex h => ?_, fun e ex h => ?_, fun e ex h => ?_,
    fun e ex h => ?_, fun e fs ex h => ?_⟩ <;>
    simp [checkCreator, checkField, checkCreators, checkPMProxy,
      checkAppComponentFactory, checkApkPaths, tryCatchB, h]

/-- Witness for claim C8: concrete environments in which each probe's first
helper call throws, making every probe report suspicious. -/
theorem claim8_witness :
    checkCreator exCreatorEnvErr = true ∧
    checkField exFieldEnvErr = true ∧
    checkCreators exCreatorsEnvErr = true ∧
    checkPMProxy exPmEnvErr = true ∧
    checkAppComponentFactory exAcfEnvErr = true ∧
    checkApkPaths exApkEnvErr exFs644 = (true, exFs644) :=
  ⟨claim8_probes_fail_closed.1 exCreatorEnvErr exc0 rfl,
   claim8_probes_fail_closed.2.1 exFieldEnvErr exc0 rfl,
   claim8_probes_fail_closed.2.2.1 exCreatorsEnvErr exc0 rfl,
   claim8_probes_fail_closed.2.2.2.1 exPmEnvErr exc0 rfl,
   claim8_probes_fail_closed.2.2.2.2.1 exAcfEnvErr exc0 rfl,
   claim8_probes_fail_closed.2.2.2.2.2 exApkEnvErr exFs644 exc0 rfl⟩

/-- Claim C9: `checkAppComponentFactory` silently skips a missing application
object (including when obtaining it throws: `getApplication` then returns
null) and a null `appComponentFactory` field; it reports suspicious exactly
when the application is obtained and either a helper call throws or the
non-null factory name differs from "androidx.core.app.CoreComponentFactory". -/
theorem claim9_acf_skips_null (e : AcfEnv) :
    checkAppComponentFactory e = true ↔
      (∃ a, getApplication e = some a) ∧
        (excIsError e.applicationInfo = true ∨ excIsError e.jAppComponentFactory = true ∨
          ∃ js, e.jAppComponentFactory = Except.ok js ∧ js ≠ jni.JString.null ∧
            jni.JStringToString js ≠ "androidx.core.app.CoreComponentFactory") := by
  cases happ : getApplication e with
  | none => simp [checkAppComponentFactory, checkAppComponentFactoryBody, tryCatchB, happ]
  | some a =>
      cases hai : e.applicationInfo with
      | error ex =>
          simp [checkAppComponentFactory, checkAppComponentFactoryBody, tryCatchB, happ, hai,
            Except.bind, excIsError]
      | ok u =>
          cases hacf : e.jAppComponentFactory with
          | error ex =>
              simp [checkAppComponentFactory, checkAppComponentFactoryBody, tryCatchB, happ,
                hai, hacf, Except.bind, excIsError]
          | ok js =>
              simp only [checkAppComponentFactory, checkAppComponentFactoryBody, tryCatchB,
                happ, hai, hacf, Except.bind, excIsError, Except.ok.injEq, exists_eq_left',
                Option.some.injEq]
              cases js with
              | null => simp [tryCatchB]
              | str o => simp [tryCatchB, bne_iff_ne]


/-- Claim C6: `checkCreators` reports suspicious exactly when the non-empty
creator `toString` lacks the "android.content.pm.PackageInfo$" lead, a class
loader is null, the creator's and the system class loader have the same class
name, or an exception is thrown; identical loader class names are treated as
tampering and differing ones as the good case. -/
theorem claim6_creators_loader_identity (e : CreatorsEnv) :
    checkCreators e = true ↔ creatorsSuspSpec e := by
  cases h1 : e.jCreatorString with
  | error ex =>
      simp [checkCreators, checkCreatorsBody, creatorsSuspSpec, tryCatchB, excIsError,
        h1, Except.bind]
  | ok js =>
      cases h2 : e.creatorClassloader with
      | error ex =>
          simp [checkCreators, checkCreatorsBody, creatorsSuspSpec, tryCatchB, excIsError,
            h1, h2, Except.bind]
      | ok cl =>
          cases h3 : e.sysClassloader with
          | error ex =>
              simp [checkCreators, checkCreatorsBody, creatorsSuspSpec, tryCatchB, excIsError,
                h1, h2, h3, Except.bind]
          | ok sl =>
              cases cl with
              | none =>
                  simp [checkCreators, checkCreatorsBody, creatorsSuspSpec, tryCatchB,
                    excIsError, h1, h2, h3, Except.bind, loaderGetClassName]
              | some l1 =>
                  cases h4 : e.loaderClassName l1 with
                  | error ex =>
                      simp [checkCreators, checkCreatorsBody, creatorsSuspSpec, tryCatchB,
                        excIsError, h1, h2, h3, h4, Except.bind, loaderGetClassName]
                  | ok n1 =>
                      cases sl with
                      | none =>
                          simp [checkCreators, checkCreatorsBody, creatorsSuspSpec, tryCatchB,
                            excIsError, h1, h2, h3, h4, Except.bind, loaderGetClassName]
                      | some l2 =>
                          cases h5 : e.loaderClassName l2 with
                          | error ex =>
                              simp [checkCreators, checkCreatorsBody, creatorsSuspSpec,
                                tryCatchB, excIsError, h1, h2, h3, h4, h5, Except.bind,
                                loaderGetClassName]
                          | ok n2 =>
                              simp only [checkCreators, checkCreatorsBody, creatorsSuspSpec,
                                tryCatchB, excIsError, h1, h2, h3, h4, h5, Except.bind,
                                loaderGetClassName, Except.ok.injEq, Option.some.injEq,
                                exists_eq_left']
                              cases hq : (jni.JStringToString n2 == jni.JStringToString n1) <;>
                                cases hr : (jni.JStringToString js != "") <;>
                                  cases hs : strStartsWith (jni.JStringToString js)
                                      "android.content.pm.PackageInfo$" <;>
                                    simp_all [beq_iff_eq, bne_iff_ne, beq_eq_false_iff_ne,
                                      bne_eq_false_iff_eq]

theorem aux_permLoop_true (c : String → Bool) (l : List String) (fs : FS) :
    (permLoop c l true fs).1 = true := by
  induction l generalizing fs with
  | nil => rfl
  | cons p rest ih =>
      unfold permLoop
      cases hfp : fs p with
      | none => simp only [hfp]; exact ih fs
      | some m =>
          simp only [hfp, ite_self]
          cases hc : c p <;> simp [hc] <;> apply ih

theorem aux_badPerm_iff (c : String → Bool) (fs : FS) (p : String) :
    badPerm c fs p = true ↔
      fs p = none ∨
      (∃ m, fs p = some m ∧ (m.mode % 0o1000 ≠ 0o644 ∨ m.uid ≠ 1000)) ∨
      ((fs p).isSome = true ∧ c p = true) := by
  cases hfp : fs p with
  | none => simp [badPerm, hfp]
  | some m => simp [badPerm, hfp, bne_iff_ne]

theorem aux_permLoop_fst (c : String → Bool) (l : List String) (susp : Bool) (fs : FS) :
    (permLoop c l susp fs).1 = (susp || l.any (fun p => badPerm c fs p)) := by
  induction l generalizing susp with
  | nil => simp [permLoop]
  | cons p rest ih =>
      unfold permLoop
      cases hfp : fs p with
      | none =>
          simp only [hfp]
          rw [aux_permLoop_true]
          simp [List.any_cons, badPerm, hfp]
      | some m =>
          cases hc : c p with
          | true =>
              simp only [hfp, hc, ite_self, if_pos]
              rw [aux_permLoop_true]
              simp [List.any_cons, badPerm, hfp, hc]
          | false =>
              simp only [hfp, hc, Bool.false_eq_true, if_false]
              rw [ih]
              simp only [List.any_cons, badPerm, hfp, bne, hc]
              cases hcp : (m.mode % 0o1000 == 0o644) <;>
                cases hco : (m.uid == 1000) <;>
                  cases susp <;> simp

/-- Claim C3: `checkApkPaths` reports suspicious exactly when some collected
path differs from the first collected path, does not start with "/data/app/",
does not end with "/base.apk", cannot be stat-ed, has permission bits other
than 0644 or owner other than uid 1000, can be chmod-ed to 0777, or an
exception is thrown during the checks. -/
theorem claim3_apk_paths_iff (e : ApkEnv) (fs : FS) :
    (checkApkPaths e fs).1 = true ↔ apkSuspSpec e fs := by
  cases h1 : e.jResourcePath with
  | error ex =>
      simp [checkApkPaths, checkApkPathsBody, apkSuspSpec, apkGatherError, excIsError,
        h1, Except.bind]
  | ok js1 =>
  cases h2 : e.jCodePath with
  | error ex =>
      simp [checkApkPaths, checkApkPathsBody, apkSuspSpec, apkGatherError, excIsError,
        h1, h2, Except.bind]
  | ok js2 =>
  cases h3 : e.jSourceDir with
  | error ex =>
      simp [checkApkPaths, checkApkPathsBody, apkSuspSpec, apkGatherError, excIsError,
        h1, h2, h3, Except.bind]
  | ok js3 =>
  cases h4 : e.jPublicSourceDir with
  | error ex =>
      simp [checkApkPaths, checkApkPathsBody, apkSuspSpec, apkGatherError, excIsError,
        h1, h2, h3, h4, Except.bind]
  | ok js4 =>
  cases h5 : e.jPackageInfoSourceDir with
  | error ex =>
      simp [checkApkPaths, checkApkPathsBody, apkSuspSpec, apkGatherError, excIsError,
        h1, h2, h3, h4, h5, Except.bind]
  | ok js5 =>
      simp only [checkApkPaths, checkApkPathsBody, h1, h2, h3, h4, h5, Except.bind]
      rw [aux_permLoop_fst]
      simp only [apkSuspSpec, apkGatherError, excIsError, h1, h2, h3, h4, h5, pathString,
        apkCollectedPaths, Bool.or_eq_true, Bool.false_or, false_or, List.any_eq_true,
        List.cons_append, List.nil_append, List.drop_succ_cons, List.drop_zero,
        List.mem_cons, aux_badPerm_iff, bne_iff_ne, Bool.not_eq_true,
        decide_eq_true_iff]
      simp only [Bool.false_eq_true, false_or]
      constructor
      · rintro (((⟨x, hm, hx⟩ | ⟨x, hm, hx⟩) | ⟨x, hm, hx⟩) | ⟨x, hm, hx⟩)
        · exact ⟨x, Or.inr hm, Or.inl hx⟩
        · exact ⟨x, hm, Or.inr (Or.inl (by simpa using hx))⟩
        · refine ⟨x, hm, Or.inr (Or.inr (Or.inl ?_))⟩
          rw [not_and_or, Nat.not_le]
          exact hx
        · exact ⟨x, hm, Or.inr (Or.inr (Or.inr hx))⟩
      · rintro ⟨p, hm, hp⟩
        rcases hp with hp | hp | hp | hp | hp | hp
        · rcases hm with rfl | hm
          · exact absurd rfl hp
          · exact Or.inl (Or.inl (Or.inl ⟨p, hm, hp⟩))
        · exact Or.inl (Or.inl (Or.inr ⟨p, hm, by simpa using hp⟩))
        · refine Or.inl (Or.inr ⟨p, hm, ?_⟩)
          rw [not_and_or, Nat.not_le] at hp
          exact hp
        · exact Or.inr ⟨p, hm, Or.inl hp⟩
        · exact Or.inr ⟨p, hm, Or.inr (Or.inl hp)⟩
        · exact Or.inr ⟨p, hm, Or.inr (Or.inr hp)⟩

theorem aux_setMode_restore (fs : FS) (p : String) (m : FileMeta)
    (hfp : fs p = some m) (hm : m.mode % 0o1000 = 0o644) :
    setMode (setMode fs p 0o777) p 0o644 = fs := by
  funext q
  unfold setMode
  by_cases hq : q = p
  · subst hq
    rcases m with ⟨mo, u⟩
    have hm2 : mo % 0o1000 = 0o644 := hm
    simp [hfp]
    omega
  · simp [hq]

theorem aux_permLoop_preserves (c : String → Bool) :
    ∀ (l : List String) (susp : Bool) (fs : FS),
      (∀ p ∈ l, preservesAt c fs p = true) → (permLoop c l susp fs).2 = fs := by
  intro l
  induction l with
  | nil => intro susp fs h; rfl
  | cons p rest ih =>
      intro susp fs h
      have hp := h p (List.mem_cons_self p rest)
      have hrest : ∀ q ∈ rest, preservesAt c fs q = true :=
        fun q hq => h q (List.mem_cons_of_mem p hq)
      unfold permLoop
      cases hfp : fs p with
      | none => simp only [hfp]; exact ih true fs hrest
      | some m =>
          cases hc : c p with
          | false =>
              simp only [hfp, hc, Bool.false_eq_true, if_false]
              exact ih _ fs hrest
          | true =>
              have hm : m.mode % 0o1000 = 0o644 := by
                simp only [preservesAt, hfp, hc, Bool.not_true, Bool.false_or,
                  beq_iff_eq] at hp
                exact hp
              simp only [hfp, hc, if_true]
              rw [aux_setMode_restore fs p m hfp hm]
              exact ih true fs hrest

/-- Counterexample to claim C2 as stated: `checkApkPaths` is not side-effect
free on the filesystem.  On a run in which every collected path is a single
stat-able path with permission bits 0600 and `chmod` succeeds, the probe
chmods the path to 0777 and then to 0644, so the path's permission bits end
at 0644, not the original 0600. -/
theorem claim2_counterexample :
    (checkApkPaths exApkEnv exFs600).2 exApkPath ≠ exFs600 exApkPath := by
  decide

/-- Claim C2 as amended: the five introspection probes touch no filesystem
state (the final filesystem of `checkSignatureBypass` is exactly the one
produced by `checkApkPaths`), and `checkApkPaths` itself leaves the
filesystem unchanged provided every collected path is un-stat-able, refuses
`chmod`, or already carries permission bits 0644; only when a stat-able,
chmod-able collected path has other permission bits does the probe rewrite
them (to 0644, via a transient 0777). -/
theorem claim2_filesystem_effect_amended :
    (∀ (se : SigEnv) (fs : FS),
      (checkSignatureBypass se fs).2 = (checkApkPaths se.apk fs).2) ∧
    (∀ (e : ApkEnv) (fs : FS),
      (∀ p ∈ apkCollectedPaths e, preservesAt e.chmodOk fs p = true) →
        (checkApkPaths e fs).2 = fs) := by
  refine ⟨fun se fs => rfl, fun e fs h => ?_⟩
  cases h1 : e.jResourcePath with
  | error ex => simp [checkApkPaths, checkApkPathsBody, h1, Except.bind]
  | ok js1 =>
  cases h2 : e.jCodePath with
  | error ex => simp [checkApkPaths, checkApkPathsBody, h1, h2, Except.bind]
  | ok js2 =>
  cases h3 : e.jSourceDir with
  | error ex => simp [checkApkPaths, checkApkPathsBody, h1, h2, h3, Except.bind]
  | ok js3 =>
  cases h4 : e.jPublicSourceDir with
  | error ex => simp [checkApkPaths, checkApkPathsBody, h1, h2, h3, h4, Except.bind]
  | ok js4 =>
  cases h5 : e.jPackageInfoSourceDir with
  | error ex => simp [checkApkPaths, checkApkPathsBody, h1, h2, h3, h4, h5, Except.bind]
  | ok js5 =>
      simp only [checkApkPaths, checkApkPathsBody, h1, h2, h3, h4, h5, Except.bind]
      apply aux_permLoop_preserves
      intro p hp
      apply h
      simp only [apkCollectedPaths, pathString, h1, h2, h3, h4, h5]
      exact hp

/-- Witness for the amended claim C2: on a concrete run in which the single
collected path carries permission bits 0644, the filesystem is unchanged. -/
theorem claim2_amended_witness :
    (∀ p ∈ apkCollectedPaths exApkEnv, preservesAt exApkEnv.chmodOk exFs644 p = true) ∧
    (checkApkPaths exApkEnv exFs644).2 = exFs644 :=
  ⟨by decide, claim2_filesystem_effect_amended.2 exApkEnv exFs644 (by decide)⟩
